import Mathlib

/-!
Verification of the voice proxy WebSocket handler
(`src/backend/src/services/websocket_handler.py`).

JSON values are embedded as an inductive `Json`; Python dictionaries become
ordered association lists (insertion order preserved, as in CPython), and
Python exceptions that escape a given `try` block become explicit `Except`
results.  Python `==` against a string constant is embedded as a pattern
match (a non-string value never equals a string in Python).
-/

/-- A JSON value as produced by `json.loads`.  Numbers are rationals. -/
inductive Json where
  | null : Json
  | bool (b : Bool) : Json
  | num (q : Rat) : Json
  | str (s : String) : Json
  | arr (elems : List Json) : Json
  | obj (fields : List (String × Json)) : Json
deriving Repr

/-- Dictionary lookup: `d.get(k)` on a parsed JSON object
(first occurrence wins; parsed objects have unique keys). -/
def lookupField (fields : List (String × Json)) (k : String) : Option Json :=
  match fields with
  | [] => none
  | (k2, v) :: rest => if k2 = k then some v else lookupField rest k

/-- Python `==` between a value and a string literal: true exactly when the
value is that string. -/
def jsonEqStr (j : Option Json) (s : String) : Bool :=
  match j with
  | some (Json.str t) => t = s
  | _ => false

/-- Python truthiness of a JSON value (`if agent_id:` etc.). -/
def pyTruthy : Json → Bool
  | Json.null => false
  | Json.bool b => b
  | Json.num q => q != 0
  | Json.str s => s ≠ ""
  | Json.arr xs => ¬ xs.isEmpty
  | Json.obj fs => ¬ fs.isEmpty

/-- `d[k] = v` on a dict: replace the binding if the key is present,
append it otherwise (CPython dict assignment). -/
def setField (fields : List (String × Json)) (k : String) (v : Json) :
    List (String × Json) :=
  match fields with
  | [] => [(k, v)]
  | (k2, w) :: rest =>
    if k2 = k then (k, v) :: rest else (k2, w) :: setField rest k v

/-- `del d[k]` on a dict: drop the (unique) binding for `k`. -/
def eraseField (fields : List (String × Json)) (k : String) :
    List (String × Json) :=
  match fields with
  | [] => []
  | (k2, w) :: rest =>
    if k2 = k then rest else (k2, w) :: eraseField rest k

example : lookupField [("a", Json.num 1), ("b", Json.null)] "b" = some Json.null := rfl
example : jsonEqStr (some (Json.str "x")) "x" = true := rfl
example : jsonEqStr (some (Json.num 1)) "x" = false := rfl

/-- Substring test on character lists (Python `needle in hay` for strings). -/
def charsContain (hay needle : List Char) : Bool :=
  match hay with
  | [] => needle.isEmpty
  | _ :: t => needle.isPrefixOf hay || charsContain t needle

/-- Python `needle in hay` for strings. -/
def strContains (hay needle : String) : Bool :=
  charsContain hay.data needle.data

mutual
/-- `json.dumps` with default separators. String escaping is not modelled
(the inputs the claims touch contain no characters needing escapes). -/
def dumps : Json → String
  | Json.null => "null"
  | Json.bool true => "true"
  | Json.bool false => "false"
  | Json.num q => if q.den = 1 then toString q.num else toString q
  | Json.str s => "\"" ++ s ++ "\""
  | Json.arr xs => "[" ++ dumpsElems xs ++ "]"
  | Json.obj fs => "\x7b" ++ dumpsFields fs ++ "\x7d"

def dumpsElems : List Json → String
  | [] => ""
  | [x] => dumps x
  | x :: y :: rest => dumps x ++ ", " ++ dumpsElems (y :: rest)

def dumpsFields : List (String × Json) → String
  | [] => ""
  | [(k, v)] => "\"" ++ k ++ "\": " ++ dumps v
  | (k, v) :: p :: rest =>
    "\"" ++ k ++ "\": " ++ dumps v ++ ", " ++ dumpsFields (p :: rest)
end

/-- Stable insertion of a binding into a key-sorted field list. -/
def insertByKey (p : String × Json) : List (String × Json) → List (String × Json)
  | [] => [p]
  | q :: rest =>
    match compare q.1 p.1 with
    | Ordering.gt => p :: q :: rest
    | _ => q :: insertByKey p rest

/-- Sort a field list by key, ascending (as `sort_keys=True` does). -/
def sortFields : List (String × Json) → List (String × Json)
  | [] => []
  | p :: rest => insertByKey p (sortFields rest)

mutual
/-- Recursively sort every object's keys (the tree `json.dumps(-, sort_keys=True)`
serializes). -/
def sortJson : Json → Json
  | Json.arr xs => Json.arr (sortJsonElems xs)
  | Json.obj fs => Json.obj (sortFields (sortJsonFields fs))
  | j => j

def sortJsonElems : List Json → List Json
  | [] => []
  | x :: rest => sortJson x :: sortJsonElems rest

def sortJsonFields : List (String × Json) → List (String × Json)
  | [] => []
  | (k, v) :: rest => (k, sortJson v) :: sortJsonFields rest
end

/-- `json.dumps(-, sort_keys=True)`: the canonical, key-order-independent
serialization used for session-updated deduplication. -/
def canonicalDumps (j : Json) : String := dumps (sortJson j)

example : dumps (Json.obj [("a", Json.num 1), ("b", Json.arr [Json.str "x"])]) =
    "\x7b\"a\": 1, \"b\": [\"x\"]\x7d" := rfl
example : canonicalDumps (Json.obj [("b", Json.null), ("a", Json.num 1)]) =
    "\x7b\"a\": 1, \"b\": null\x7d" := rfl
example : strContains "session.updated" "session" = true := rfl
example : strContains "abc" "zz" = false := rfl

/-- An exception class escaping an inner `try` block that catches only
`json.JSONDecodeError` (and, in the client loop, `KeyError`). -/
inductive PyExn where
  | attrError : PyExn
  | typeError : PyExn
deriving Repr, DecidableEq

/-- Outcome of waiting for the client's first frame in
`_get_agent_id_from_client`: timeout of the 10-second wait, a falsy
(`None`/empty) frame, an exception from the receive call, or a frame whose
text parsed to `some j` (or failed to parse, `none`). -/
inductive FirstFrameResult where
  | timeout : FirstFrameResult
  | emptyFrame : FirstFrameResult
  | recvRaises : FirstFrameResult
  | frame (raw : String) (parsed : Option Json) : FirstFrameResult

/-- The body of `_get_agent_id_from_client` after a successful JSON parse:
`msg.get("type")`, the `session.update` comparison, `msg.get("session", {})`,
`.get("agent_id")`, and the truthiness check.  `.get` on a non-dict raises
`AttributeError`, surfaced here as `Except.error`. -/
def getAgentIdCore (msg : Json) : Except PyExn (Option Json) :=
  match msg with
  | Json.obj fields =>
    if jsonEqStr (lookupField fields "type") "session.update" then
      match (lookupField fields "session").getD (Json.obj []) with
      | Json.obj sess =>
        match lookupField sess "agent_id" with
        | some v => Except.ok (if pyTruthy v then some v else none)
        | none => Except.ok none
      | _ => Except.error PyExn.attrError
    else Except.ok none
  | _ => Except.error PyExn.attrError

/-- `_get_agent_id_from_client`: every failure path (timeout, empty frame,
receive error, JSON decode error, any exception from the extraction) falls
through to `return None`. -/
def get_agent_id_from_client : FirstFrameResult → Option Json
  | FirstFrameResult.timeout => none
  | FirstFrameResult.emptyFrame => none
  | FirstFrameResult.recvRaises => none
  | FirstFrameResult.frame _ none => none
  | FirstFrameResult.frame _ (some j) =>
    match getAgentIdCore j with
    | Except.ok r => r
    | Except.error _ => none

/-- Modelled from the spec (§4.2 AgentIdentifier): the identification result
the specification describes — the agent identifier exactly when the first
frame arrives in time and parses as a `session.update` message whose session
object carries a (truthy) `agent_id`; `none` in every other case. -/
def specAgentIdentification : FirstFrameResult → Option Json
  | FirstFrameResult.frame _ (some (Json.obj fields)) =>
    if jsonEqStr (lookupField fields "type") "session.update" then
      match lookupField fields "session" with
      | some (Json.obj sess) =>
        match lookupField sess "agent_id" with
        | some v => if pyTruthy v then some v else none
        | _ => none
      | _ => none
    else none
  | _ => none

example :
    get_agent_id_from_client (FirstFrameResult.frame "m"
      (some (Json.obj [("type", Json.str "session.update"),
                       ("session", Json.obj [("agent_id", Json.str "X")])]))) =
    some (Json.str "X") := rfl
example :
    get_agent_id_from_client (FirstFrameResult.frame "m" (some (Json.arr []))) = none := rfl
example : get_agent_id_from_client FirstFrameResult.timeout = none := rfl

/-- Python `key in container` (`"agent_id" in msg_data["session"]`):
key membership for dicts, substring for strings, element equality for lists;
`TypeError` for the remaining scalar types. -/
def pyContains (needle : String) : Json → Except PyExn Bool
  | Json.obj fields => Except.ok (lookupField fields needle).isSome
  | Json.str s => Except.ok (strContains s needle)
  | Json.arr xs =>
    Except.ok (xs.any fun x => match x with
      | Json.str t => t = needle
      | _ => false)
  | _ => Except.error PyExn.typeError

/-- Per-frame body of `_forward_client_to_azure`'s inner `try`: parse, and on
a `session.update` dict with an `agent_id` key inside its `session` value,
delete that key and re-serialize; otherwise keep the received text.  The
inner `except` catches only `json.JSONDecodeError` and `KeyError`, so
`AttributeError` (`.get` on a non-dict) and `TypeError` (`in`/`del` on a
non-container) escape as `Except.error`. -/
def stripAgentIdTransform (raw : String) (parsed : Option Json) :
    Except PyExn String :=
  match parsed with
  | none => Except.ok raw
  | some m =>
    match m with
    | Json.obj fields =>
      if jsonEqStr (lookupField fields "type") "session.update" then
        match lookupField fields "session" with
        | some sess =>
          match pyContains "agent_id" sess with
          | Except.error e => Except.error e
          | Except.ok true =>
            match sess with
            | Json.obj sf =>
              Except.ok (dumps (Json.obj
                (setField fields "session" (Json.obj (eraseField sf "agent_id")))))
            | _ => Except.error PyExn.typeError
          | Except.ok false => Except.ok raw
        | none => Except.ok raw
      else Except.ok raw
    | _ => Except.error PyExn.attrError

/-- `_forward_client_to_azure`: each received frame is transformed and sent;
an exception escaping the inner `try` is caught by the loop's outer
`except Exception`, which terminates the loop (remaining frames are dropped).
The input list pairs each received text with its `json.loads` outcome. -/
def forward_client_to_azure : List (String × Option Json) → List String
  | [] => []
  | (raw, parsed) :: rest =>
    match stripAgentIdTransform raw parsed with
    | Except.ok m => m :: forward_client_to_azure rest
    | Except.error _ => []

/-- Per-frame body of `_forward_azure_to_client`'s inner `try`: dedup of
`session.updated` frames by a hash of the canonical serialization of their
session content, avatar logging (`.get("avatar", {})` on the session value —
`AttributeError` on a non-dict), and the WebRTC keyword scan
(`keyword in msg_type` — `TypeError` when the type field is a non-container).
Returns the new recorded hash and the frame to forward (`none` = suppressed). -/
def forwardAzureStep (hashFn : String → Int) (last : Option Int)
    (raw : String) (parsed : Option Json) :
    Except PyExn (Option Int × Option String) :=
  match parsed with
  | none => Except.ok (last, some raw)
  | some m =>
    match m with
    | Json.obj fields =>
      let msgType := (lookupField fields "type").getD (Json.str "")
      if jsonEqStr (some msgType) "session.updated" then
        let sessionContent :=
          canonicalDumps ((lookupField fields "session").getD (Json.obj []))
        let h := hashFn sessionContent
        if last = some h then Except.ok (last, none)
        else
          match (lookupField fields "session").getD (Json.obj []) with
          | Json.obj _ => Except.ok (some h, some raw)
          | _ => Except.error PyExn.attrError
      else
        match msgType with
        | Json.str _ => Except.ok (last, some raw)
        | Json.arr _ => Except.ok (last, some raw)
        | Json.obj _ => Except.ok (last, some raw)
        | _ => Except.error PyExn.typeError
    | _ => Except.error PyExn.attrError

/-- `_forward_azure_to_client`: fold `forwardAzureStep` over the upstream
frames, forwarding the non-suppressed ones; an exception escaping the inner
`try` reaches the loop's outer `except Exception` and terminates the loop. -/
def forward_azure_to_client (hashFn : String → Int) :
    Option Int → List (String × Option Json) → List String
  | _, [] => []
  | last, (raw, parsed) :: rest =>
    match forwardAzureStep hashFn last raw parsed with
    | Except.error _ => []
    | Except.ok (newLast, none) => forward_azure_to_client hashFn newLast rest
    | Except.ok (newLast, some m) => m :: forward_azure_to_client hashFn newLast rest

/-- An injective-enough stand-in for Python's string hash, used only in the
concrete evaluation examples below. -/
def demoHash (s : String) : Int :=
  s.data.foldl (fun a c => a * 256 + (c.toNat : Int)) 0

example :
    forward_azure_to_client demoHash none
      [("m1", some (Json.obj [("type", Json.str "session.updated"),
          ("session", Json.obj [("a", Json.num 1), ("b", Json.num 2)])])),
       ("m2", some (Json.obj [("type", Json.str "session.updated"),
          ("session", Json.obj [("b", Json.num 2), ("a", Json.num 1)])])),
       ("m3", some (Json.obj [("type", Json.str "session.updated"),
          ("session", Json.obj [("a", Json.num 3)])]))] = ["m1", "m3"] := rfl

example :
    forward_client_to_azure
      [("f1", some (Json.obj [("type", Json.str "session.update"),
          ("session", Json.obj [("agent_id", Json.str "X"), ("foo", Json.num 1)])])),
       ("f2", some (Json.obj [("type", Json.str "response.create")])),
       ("not json", none)] =
      ["\x7b\"type\": \"session.update\", \"session\": \x7b\"foo\": 1\x7d\x7d",
       "f2", "not json"] := rfl

/-- Process configuration (`src.config.config`).  Keys read with `.get` and
no default are `Option String` (`None` when unset); `agent_id` and
`project_endpoint` are plain strings whose empty value is falsy (the repo's
test observes `config.get("agent_id") == ""` when the variable is unset). -/
structure Config where
  azureAiResourceName : String
  azureAiProjectName : Option String
  projectEndpoint : String
  modelDeploymentName : String
  agentId : String
  azureOpenaiApiKey : String
  azureVoiceName : String
  azureVoiceType : String

/-- A resolved agent descriptor as returned by the agent registry
(`agent_manager.get_agent`): the `is_azure_agent` flag, an optional model
name, and the instruction/sampling fields the local-agent merge reads. -/
structure AgentConfig where
  isAzureAgent : Bool
  model : Option String
  instructions : Json
  temperature : Json
  maxTokens : Json

/-- Python `f"{x}"` for an `Optional[str]`: `None` renders as `"None"`. -/
def pyFormatOptStr : Option String → String
  | some s => s
  | none => "None"

def AZURE_VOICE_API_VERSION : String := "2025-05-01-preview"
def AZURE_COGNITIVE_SERVICES_DOMAIN : String := "cognitiveservices.azure.com"
def VOICE_AGENT_ENDPOINT : String := "voice-agent/realtime"
def DEFAULT_TURN_DETECTION_TYPE : String := "azure_semantic_vad"
def DEFAULT_NOISE_REDUCTION_TYPE : String := "azure_deep_noise_suppression"
def DEFAULT_ECHO_CANCELLATION_TYPE : String := "server_echo_cancellation"
def DEFAULT_AVATAR_CHARACTER : String := "lisa"
def DEFAULT_AVATAR_STYLE : String := "casual-sitting"

/-- `_build_base_azure_url`; `rid` is the freshly generated
`uuid.uuid4()` client request id, passed in explicitly. -/
def build_base_azure_url (cfg : Config) (rid : String) : String :=
  "wss://" ++ cfg.azureAiResourceName ++ "." ++ AZURE_COGNITIVE_SERVICES_DOMAIN
    ++ "/" ++ VOICE_AGENT_ENDPOINT ++ "?api-version=" ++ AZURE_VOICE_API_VERSION
    ++ "&x-ms-client-request-id=" ++ rid

/-- `_build_agent_specific_url`. -/
def build_agent_specific_url (cfg : Config) (base : String)
    (agentId : Option String) (ac : AgentConfig) : String :=
  if ac.isAzureAgent then
    let url := base ++ "&agent-id=" ++ pyFormatOptStr agentId
      ++ "&agent-project-name=" ++ pyFormatOptStr cfg.azureAiProjectName
    if cfg.projectEndpoint ≠ "" then
      url ++ "&connection-string=" ++ cfg.projectEndpoint
    else url
  else
    base ++ "&model=" ++ ((ac.model).getD cfg.modelDeploymentName)

/-- `_build_azure_url`. -/
def build_azure_url (cfg : Config) (rid : String)
    (agentId : Option String) (agentConfig : Option AgentConfig) : String :=
  let base := build_base_azure_url cfg rid
  match agentConfig with
  | some ac => build_agent_specific_url cfg base agentId ac
  | none =>
    if cfg.agentId ≠ "" then base ++ "&agent-id=" ++ cfg.agentId
    else base ++ "&model=" ++ cfg.modelDeploymentName

/-- `_build_session_config`: the fixed base session configuration. -/
def build_session_config (cfg : Config) : Json :=
  Json.obj [
    ("type", Json.str "session.update"),
    ("session", Json.obj [
      ("modalities", Json.arr [Json.str "text", Json.str "audio"]),
      ("turn_detection", Json.obj [("type", Json.str DEFAULT_TURN_DETECTION_TYPE)]),
      ("input_audio_noise_reduction",
        Json.obj [("type", Json.str DEFAULT_NOISE_REDUCTION_TYPE)]),
      ("input_audio_echo_cancellation",
        Json.obj [("type", Json.str DEFAULT_ECHO_CANCELLATION_TYPE)]),
      ("avatar", Json.obj [
        ("character", Json.str DEFAULT_AVATAR_CHARACTER),
        ("style", Json.str DEFAULT_AVATAR_STYLE)]),
      ("voice", Json.obj [
        ("name", Json.str cfg.azureVoiceName),
        ("type", Json.str cfg.azureVoiceType)])])]

/-- `_add_local_agent_config`: mutate the `session` sub-dict with the four
local-agent fields. -/
def add_local_agent_config (cfg : Config) (m : Json) (ac : AgentConfig) : Json :=
  match m with
  | Json.obj fields =>
    match lookupField fields "session" with
    | some (Json.obj sess) =>
      let sess := setField sess "model"
        (Json.str ((ac.model).getD cfg.modelDeploymentName))
      let sess := setField sess "instructions" ac.instructions
      let sess := setField sess "temperature" ac.temperature
      let sess := setField sess "max_response_output_tokens" ac.maxTokens
      Json.obj (setField fields "session" (Json.obj sess))
    | _ => m
  | _ => m

/-- The payload `_send_initial_config` serializes and sends: the base session
configuration, merged with the local-agent fields exactly when an agent
configuration is present and is not an Azure (remote) agent. -/
def initial_config_message (cfg : Config) (agentConfig : Option AgentConfig) : Json :=
  let m := build_session_config cfg
  match agentConfig with
  | some ac => if ac.isAzureAgent then m else add_local_agent_config cfg m ac
  | none => m

/-- Transport headers: exactly one of a bearer token or a static key. -/
inductive Headers where
  | bearer (token : String) : Headers
  | apiKey (key : String) : Headers
deriving Repr, DecidableEq

/-- Result of the credential-selection section of `_connect_to_azure`
(lines 176-213). -/
inductive AuthResult where
  | missingProject : AuthResult
  | authFailed : AuthResult
  | headers (h : Headers) : AuthResult
deriving Repr, DecidableEq

/-- Credential selection from `_connect_to_azure`: for an Azure (remote)
agent, require a project name, then try the primary-scope token and fall
back to the cognitive-services scope; for anything else require the static
API key.  `primaryTok`/`fallbackTok` are the outcomes of the two
`credential.get_token` calls (`none` = the call raised). -/
def select_auth (cfg : Config) (isAzureAgent : Bool)
    (primaryTok fallbackTok : Option String) : AuthResult :=
  if isAzureAgent then
    match cfg.azureAiProjectName with
    | none => AuthResult.missingProject
    | some p =>
      if p = "" then AuthResult.missingProject
      else
        match primaryTok with
        | some t => AuthResult.headers (Headers.bearer t)
        | none =>
          match fallbackTok with
          | some t => AuthResult.headers (Headers.bearer t)
          | none => AuthResult.authFailed
  else
    if cfg.azureOpenaiApiKey = "" then AuthResult.authFailed
    else AuthResult.headers (Headers.apiKey cfg.azureOpenaiApiKey)

/-- Behavior of the network during `websockets.connect` / the initial send:
a clean connection (with the initial config send succeeding or raising),
`InvalidStatusCode`, another `WebSocketException`, or a generic error. -/
inductive Net where
  | ok (sendOk : Bool) : Net
  | rejected (status : Nat) : Net
  | wsError : Net
  | genericError : Net
deriving Repr, DecidableEq

inductive ConnectFailure where
  | missingResourceName : ConnectFailure
  | missingProjectName : ConnectFailure
  | authFailure : ConnectFailure
  | handshakeRejected (status : Nat) : ConnectFailure
  | wsFailure : ConnectFailure
  | genericFailure : ConnectFailure
deriving Repr, DecidableEq

/-- `_connect_to_azure`'s return value: `None` (with the distinguishing
failure path) or the connected socket, carried here as the URL, headers and
already-sent initial configuration. -/
inductive ConnectOutcome where
  | failed (f : ConnectFailure) : ConnectOutcome
  | connected (url : String) (h : Headers) (sentConfig : Json) : ConnectOutcome

/-- Observable side effects of one `_connect_to_azure` call. -/
structure ConnectTrace where
  connectAttempted : Bool
  opened : Bool
  closeCount : Nat
  sentConfig : Option Json

/-- The agent configuration `_connect_to_azure` resolves:
`agent_manager.get_agent(agent_id) if agent_id else None`
(an empty identifier is falsy). -/
def resolved_agent_config (getAgent : String → Option AgentConfig) :
    Option String → Option AgentConfig
  | some a => if a = "" then none else getAgent a
  | none => none

/-- `_connect_to_azure`: validate the resource name, resolve the agent,
select credentials, build the URL, open the transport and send the initial
configuration.  `websockets.connect` raising means no socket was ever bound
to `azure_ws`; a failure of the initial send is caught by the generic
`except Exception`, which closes the socket before returning `None`. -/
def connect_to_azure (getAgent : String → Option AgentConfig) (cfg : Config)
    (rid : String) (agentId : Option String) (net : Net)
    (primaryTok fallbackTok : Option String) :
    ConnectOutcome × ConnectTrace :=
  if cfg.azureAiResourceName = "" then
    (ConnectOutcome.failed ConnectFailure.missingResourceName,
     ⟨false, false, 0, none⟩)
  else
    let ac := resolved_agent_config getAgent agentId
    let isAzure := ((ac.map AgentConfig.isAzureAgent).getD false)
    match select_auth cfg isAzure primaryTok fallbackTok with
    | AuthResult.missingProject =>
      (ConnectOutcome.failed ConnectFailure.missingProjectName,
       ⟨false, false, 0, none⟩)
    | AuthResult.authFailed =>
      (ConnectOutcome.failed ConnectFailure.authFailure,
       ⟨false, false, 0, none⟩)
    | AuthResult.headers h =>
      let url := build_azure_url cfg rid agentId ac
      match net with
      | Net.rejected s =>
        (ConnectOutcome.failed (ConnectFailure.handshakeRejected s),
         ⟨true, false, 0, none⟩)
      | Net.wsError =>
        (ConnectOutcome.failed ConnectFailure.wsFailure, ⟨true, false, 0, none⟩)
      | Net.genericError =>
        (ConnectOutcome.failed ConnectFailure.genericFailure,
         ⟨true, false, 0, none⟩)
      | Net.ok sendOk =>
        let msg := initial_config_message cfg ac
        if sendOk then
          (ConnectOutcome.connected url h msg, ⟨true, true, 0, some msg⟩)
        else
          (ConnectOutcome.failed ConnectFailure.genericFailure,
           ⟨true, true, 1, none⟩)

/-- Python `f"{x}"` of a JSON value, for threading a client-supplied agent
identifier (normally a string) into the registry and URL.  Container
rendering is abstracted; no verified claim depends on it. -/
def pyStr : Json → String
  | Json.str s => s
  | Json.num q => if q.den = 1 then toString q.num else toString q
  | Json.bool true => "True"
  | Json.bool false => "False"
  | Json.null => "None"
  | Json.arr _ => "[...]"
  | Json.obj _ => "\x7b...\x7d"

/-- `_send_error`'s frame shape. -/
def error_frame (msg : String) : Json :=
  Json.obj [("type", Json.str "error"),
            ("error", Json.obj [("message", Json.str msg)])]

/-- The `proxy.connected` notification sent after a successful connect. -/
def proxy_connected_frame : Json :=
  Json.obj [("type", Json.str "proxy.connected"),
            ("message", Json.str "Connected to Azure Voice API")]

/-- Everything one `handle_connection` call consumes: the process
configuration, the agent registry (total, per its spec interface), the
client's first frame, the network behavior, the token-call outcomes, and the
frames each side produces during forwarding. -/
structure HandleEnv where
  cfg : Config
  getAgent : String → Option AgentConfig
  firstFrame : FirstFrameResult
  requestId : String
  net : Net
  primaryTok : Option String
  fallbackTok : Option String
  clientFrames : List (String × Option Json)
  azureFrames : List (String × Option Json)
  hashFn : String → Int

/-- Observable outcome of one `handle_connection` call. -/
structure HandleTrace where
  raised : Bool
  framesToClient : List String
  framesToAzure : List String
  azureCloseCount : Nat

/-- The agent identifier `handle_connection` settles on: the predefined one
from configuration when set (identification skipped), else the one extracted
from the client's first frame. -/
def current_agent_id (env : HandleEnv) : Option String :=
  if env.cfg.agentId ≠ "" then some env.cfg.agentId
  else (get_agent_id_from_client env.firstFrame).map pyStr

/-- `handle_connection`: identify the agent, connect upstream (sending the
error frame and returning when that fails), announce `proxy.connected`, run
the two forwarding loops, and close the upstream socket in the `finally`
block whenever one was handed back.  The registry calls
(`create_or_get_agent` for a predefined agent, `get_agent` during connect)
are modelled as total functions, matching their specified interface
(`ensure_default(scenario) -> AgentConfig`, `resolve(id) -> AgentConfig |
absent`); the forwarding loops swallow their own exceptions, so nothing in
the guarded region raises. -/
def handle_connection (env : HandleEnv) : HandleTrace :=
  let aid := current_agent_id env
  let r := connect_to_azure env.getAgent env.cfg env.requestId aid env.net
    env.primaryTok env.fallbackTok
  match r.1 with
  | ConnectOutcome.failed _ =>
    { raised := false,
      framesToClient := [dumps (error_frame "Failed to connect to Azure Voice API")],
      framesToAzure := [],
      azureCloseCount := r.2.closeCount }
  | ConnectOutcome.connected _ _ _ =>
    { raised := false,
      framesToClient := dumps proxy_connected_frame ::
        forward_azure_to_client env.hashFn none env.azureFrames,
      framesToAzure := forward_client_to_azure env.clientFrames,
      azureCloseCount := r.2.closeCount + 1 }

/-- C1: for a connection without a process-wide fixed agent identifier,
`_get_agent_id_from_client` returns the agent identifier exactly when the
first frame arrives within the bound and parses as a `session.update`
message whose session object carries a (truthy) agent identifier; in every
other case (timeout, empty frame, parse failure, any other shape) it
returns `none` rather than raising. -/
theorem agent_identification_matches_spec (r : FirstFrameResult) :
    get_agent_id_from_client r = specAgentIdentification r := by
  cases r with
  | timeout => rfl
  | emptyFrame => rfl
  | recvRaises => rfl
  | frame raw parsed =>
    cases parsed with
    | none => rfl
    | some j =>
      cases j with
      | null => rfl
      | bool b => rfl
      | num q => rfl
      | str s => rfl
      | arr xs => rfl
      | obj fields =>
        simp only [get_agent_id_from_client, specAgentIdentification, getAgentIdCore]
        by_cases htype : jsonEqStr (lookupField fields "type") "session.update" = true
        · simp only [htype, if_true]
          cases hsess : lookupField fields "session" with
          | none => simp [hsess, lookupField]
          | some s =>
            cases s with
            | obj sf =>
              simp only [hsess, Option.getD]
              cases lookupField sf "agent_id" <;> simp
            | null => simp [hsess]
            | bool b => simp [hsess]
            | num q => simp [hsess]
            | str t => simp [hsess]
            | arr xs => simp [hsess]
        · simp [htype]

/-- C2 (failing input): an upstream `session.updated` frame whose `session`
value is the string `"x"` — with no previously recorded hash — is not
forwarded; the new hash is recorded, then the avatar-logging call
`msg_data.get("session", {}).get("avatar", {})` raises `AttributeError`,
which the inner `except json.JSONDecodeError` does not catch, so the
forwarding loop terminates and the frame is dropped. -/
theorem session_updated_nondict_session_kills_azure_loop :
    forward_azure_to_client (fun _ => 0) none
      [("\x7b\"type\": \"session.updated\", \"session\": \"x\"\x7d",
        some (Json.obj [("type", Json.str "session.updated"),
                        ("session", Json.str "x")]))] = [] := rfl

/-- C3 (failing input): a client frame `\x7b"type": "session.update",
"session": 5\x7d` does not match the stripping shape, yet instead of being
forwarded unmodified it raises `TypeError` at
`"agent_id" in msg_data["session"]`; the inner `except` catches only
`json.JSONDecodeError` and `KeyError`, so the loop terminates and the
frame is dropped. -/
theorem session_update_nondict_session_kills_client_loop :
    forward_client_to_azure
      [("\x7b\"type\": \"session.update\", \"session\": 5\x7d",
        some (Json.obj [("type", Json.str "session.update"),
                        ("session", Json.num 5)]))] = [] := rfl

/-- C10 (failing input): a client frame `[1, 2, 3]` parses as JSON but is
not an object; `msg_data.get("type")` raises `AttributeError`, which the
inner `except (json.JSONDecodeError, KeyError)` does not catch, so the
client-to-upstream loop terminates and the frame is dropped instead of
being forwarded byte-for-byte. -/
theorem json_array_frame_kills_client_loop :
    forward_client_to_azure
      [("[1, 2, 3]",
        some (Json.arr [Json.num 1, Json.num 2, Json.num 3]))] = [] := rfl

/-- C4: for every agent configuration input, the built initial session
configuration is a `session.update` whose session carries the fixed default
fields (modalities, turn-detection, noise-reduction and echo-cancellation
types, avatar character/style, voice name/type); the four local-agent
fields (model, instructions, temperature, max_response_output_tokens)
appear, with the values taken from the agent configuration (the model
falling back to the default deployment name), exactly when an agent
configuration is present and is not an Azure (remote) agent. -/
theorem initial_session_config_fields (cfg : Config) (ac : Option AgentConfig) :
    ∃ sess : List (String × Json),
      initial_config_message cfg ac =
        Json.obj [("type", Json.str "session.update"), ("session", Json.obj sess)] ∧
      lookupField sess "modalities" =
        some (Json.arr [Json.str "text", Json.str "audio"]) ∧
      lookupField sess "turn_detection" =
        some (Json.obj [("type", Json.str "azure_semantic_vad")]) ∧
      lookupField sess "input_audio_noise_reduction" =
        some (Json.obj [("type", Json.str "azure_deep_noise_suppression")]) ∧
      lookupField sess "input_audio_echo_cancellation" =
        some (Json.obj [("type", Json.str "server_echo_cancellation")]) ∧
      lookupField sess "avatar" =
        some (Json.obj [("character", Json.str "lisa"),
                        ("style", Json.str "casual-sitting")]) ∧
      lookupField sess "voice" =
        some (Json.obj [("name", Json.str cfg.azureVoiceName),
                        ("type", Json.str cfg.azureVoiceType)]) ∧
      (lookupField sess "model", lookupField sess "instructions",
       lookupField sess "temperature",
       lookupField sess "max_response_output_tokens") =
        (match ac with
         | some a =>
           if a.isAzureAgent then (none, none, none, none)
           else (some (Json.str ((a.model).getD cfg.modelDeploymentName)),
                 some a.instructions, some a.temperature, some a.maxTokens)
         | none => (none, none, none, none)) := by
  cases ac with
  | none => exact ⟨_, rfl, rfl, rfl, rfl, rfl, rfl, rfl, rfl⟩
  | some a =>
    obtain ⟨iaz, mdl, ins, tmp, mx⟩ := a
    cases iaz with
    | true => exact ⟨_, rfl, rfl, rfl, rfl, rfl, rfl, rfl, rfl⟩
    | false => exact ⟨_, rfl, rfl, rfl, rfl, rfl, rfl, rfl, rfl⟩

/-- Spec-side (§4.4 UpstreamURLBuilder) variant parameter selection, in the
spec's priority order: resolved remote agent → agent id, project name and
(when an endpoint is configured) the connection string; resolved local
agent → the agent's model with the default-deployment fallback; no resolved
agent but a fixed agent id configured → that agent id alone; otherwise →
the default model deployment name alone. -/
def specUrlVariantParams (cfg : Config) (agentId : Option String)
    (ac : Option AgentConfig) : List (String × String) :=
  match ac with
  | some a =>
    if a.isAzureAgent then
      [("agent-id", pyFormatOptStr agentId),
       ("agent-project-name", pyFormatOptStr cfg.azureAiProjectName)] ++
        (if cfg.projectEndpoint ≠ "" then
           [("connection-string", cfg.projectEndpoint)]
         else [])
    else [("model", (a.model).getD cfg.modelDeploymentName)]
  | none =>
    if cfg.agentId ≠ "" then [("agent-id", cfg.agentId)]
    else [("model", cfg.modelDeploymentName)]

/-- Render a query-parameter list as the `&key=value` suffix it contributes
to a URL. -/
def renderQueryParams : List (String × String) → String
  | [] => ""
  | p :: rest => "&" ++ p.1 ++ "=" ++ p.2 ++ renderQueryParams rest

/-- C5: the built upstream URL is the common base — fixed API-version
parameter plus the per-call trace identifier — followed by exactly the
variant parameter set the specification's priority order selects. -/
theorem azure_url_variant_selection (cfg : Config) (rid : String)
    (agentId : Option String) (ac : Option AgentConfig) :
    build_azure_url cfg rid agentId ac =
      build_base_azure_url cfg rid ++
        renderQueryParams (specUrlVariantParams cfg agentId ac) ∧
    build_base_azure_url cfg rid =
      "wss://" ++ cfg.azureAiResourceName ++ "." ++ AZURE_COGNITIVE_SERVICES_DOMAIN
        ++ "/" ++ VOICE_AGENT_ENDPOINT ++ "?api-version=" ++ AZURE_VOICE_API_VERSION
        ++ "&x-ms-client-request-id=" ++ rid := by
  refine ⟨?_, rfl⟩
  cases ac with
  | none =>
    simp only [build_azure_url, specUrlVariantParams]
    by_cases h : cfg.agentId ≠ ""
    · rw [if_pos h, if_pos h]
      simp only [renderQueryParams]
      rw [show ("&" ++ "agent-id" ++ "=" : String) = "&agent-id=" from rfl]
      simp [String.append_assoc]
    · rw [if_neg h, if_neg h]
      simp only [renderQueryParams]
      rw [show ("&" ++ "model" ++ "=" : String) = "&model=" from rfl]
      simp [String.append_assoc]
  | some a =>
    simp only [build_azure_url, build_agent_specific_url, specUrlVariantParams]
    by_cases haz : a.isAzureAgent
    · rw [if_pos haz, if_pos haz]
      by_cases hep : cfg.projectEndpoint ≠ ""
      · rw [if_pos hep, if_pos hep]
        simp only [List.cons_append, List.nil_append, renderQueryParams]
        rw [show ("&" ++ "agent-id" ++ "=" : String) = "&agent-id=" from rfl,
            show ("&" ++ "agent-project-name" ++ "=" : String) =
              "&agent-project-name=" from rfl,
            show ("&" ++ "connection-string" ++ "=" : String) =
              "&connection-string=" from rfl]
        simp [String.append_assoc]
      · rw [if_neg hep, if_neg hep]
        simp only [List.append_nil, renderQueryParams]
        rw [show ("&" ++ "agent-id" ++ "=" : String) = "&agent-id=" from rfl,
            show ("&" ++ "agent-project-name" ++ "=" : String) =
              "&agent-project-name=" from rfl]
        simp [String.append_assoc]
    · rw [if_neg haz, if_neg haz]
      simp only [renderQueryParams]
      rw [show ("&" ++ "model" ++ "=" : String) = "&model=" from rfl]
      simp [String.append_assoc]

/-- C6: credential selection fails exactly when no usable credential can be
produced.  For a remote (Azure) agent with its project name configured, a
primary-scope token is tried and, on failure, the fallback scope; either
success yields bearer headers, and both failing yields the authentication
failure; for a non-remote agent or no agent, the statically configured key
is required and its absence is the failure.  Whenever `_connect_to_azure`
fails on the credential path, no network connection is attempted. -/
theorem auth_selection_characterization :
    (∀ (cfg : Config) (isAzure : Bool) (pt ft : Option String),
      (isAzure = true → ∃ p, cfg.azureAiProjectName = some p ∧ p ≠ "") →
      ((select_auth cfg isAzure pt ft = AuthResult.authFailed ↔
          (isAzure = true ∧ pt = none ∧ ft = none) ∨
          (isAzure = false ∧ cfg.azureOpenaiApiKey = "")) ∧
       (∀ t, isAzure = true → pt = some t →
         select_auth cfg isAzure pt ft = AuthResult.headers (Headers.bearer t)) ∧
       (∀ t, isAzure = true → pt = none → ft = some t →
         select_auth cfg isAzure pt ft = AuthResult.headers (Headers.bearer t)))) ∧
    (∀ (getAgent : String → Option AgentConfig) (cfg : Config) (rid : String)
       (aid : Option String) (net : Net) (pt ft : Option String),
      (connect_to_azure getAgent cfg rid aid net pt ft).1 =
        ConnectOutcome.failed ConnectFailure.authFailure →
      (connect_to_azure getAgent cfg rid aid net pt ft).2.connectAttempted = false) := by
  constructor
  · intro cfg isAzure pt ft hproj
    cases isAzure with
    | false =>
      refine ⟨?_, by simp, by simp⟩
      simp only [select_auth, Bool.false_eq_true, if_false]
      by_cases hk : cfg.azureOpenaiApiKey = "" <;> simp [hk]
    | true =>
      obtain ⟨p, hp, hpne⟩ := hproj rfl
      simp only [select_auth, if_true, hp]
      rw [if_neg hpne]
      cases pt with
      | some t => simp
      | none => cases ft with
        | some t => simp
        | none => simp
  · intro getAgent cfg rid aid net pt ft h
    simp only [connect_to_azure] at h ⊢
    by_cases hres : cfg.azureAiResourceName = ""
    · simp [hres] at h
    · simp only [hres, if_false, ite_false] at h ⊢
      rcases hsel : select_auth cfg
          (((resolved_agent_config getAgent aid).map AgentConfig.isAzureAgent).getD false)
          pt ft with _ | _ | hh
      · simp [hsel] at h
      · simp [hsel]
      · simp only [hsel] at h
        cases net with
        | ok sendOk => cases sendOk <;> simp at h
        | rejected s => simp at h
        | wsError => simp at h
        | genericError => simp at h

/-- Witness for the credential-selection theorem: with a configured project
name, a remote agent whose two token attempts both fail is an
authentication failure, and an authentication failure in
`_connect_to_azure` attempts no network connection. -/
theorem auth_selection_characterization_witness :
    select_auth ⟨"res", some "proj", "", "gpt", "", "", "v", "vt"⟩ true none none =
      AuthResult.authFailed ∧
    (connect_to_azure (fun _ => none)
        ⟨"res", some "proj", "", "gpt", "", "", "v", "vt"⟩
        "rid" none (Net.ok true) none none).2.connectAttempted = false :=
  ⟨(auth_selection_characterization.1
      ⟨"res", some "proj", "", "gpt", "", "", "v", "vt"⟩ true none none
      (fun _ => ⟨"proj", rfl, by decide⟩)).1.mpr (Or.inl ⟨rfl, rfl, rfl⟩),
   auth_selection_characterization.2 (fun _ => none)
      ⟨"res", some "proj", "", "gpt", "", "", "v", "vt"⟩
      "rid" none (Net.ok true) none none rfl⟩

/-- C8: on success `_connect_to_azure` has already sent the built initial
session configuration before handing the connection back, and on every
failure no half-open upstream connection is left behind: the socket is
either never opened or closed exactly once before returning. -/
theorem connect_upstream_contract (getAgent : String → Option AgentConfig)
    (cfg : Config) (rid : String) (aid : Option String) (net : Net)
    (pt ft : Option String) :
    (∀ url h m, (connect_to_azure getAgent cfg rid aid net pt ft).1 =
        ConnectOutcome.connected url h m →
      m = initial_config_message cfg (resolved_agent_config getAgent aid) ∧
      (connect_to_azure getAgent cfg rid aid net pt ft).2.sentConfig = some m ∧
      (connect_to_azure getAgent cfg rid aid net pt ft).2.opened = true) ∧
    (∀ f, (connect_to_azure getAgent cfg rid aid net pt ft).1 =
        ConnectOutcome.failed f →
      (connect_to_azure getAgent cfg rid aid net pt ft).2.sentConfig = none ∧
      ((connect_to_azure getAgent cfg rid aid net pt ft).2.opened = true →
        (connect_to_azure getAgent cfg rid aid net pt ft).2.closeCount = 1) ∧
      ((connect_to_azure getAgent cfg rid aid net pt ft).2.opened = false →
        (connect_to_azure getAgent cfg rid aid net pt ft).2.closeCount = 0)) := by
  simp only [connect_to_azure]
  by_cases hres : cfg.azureAiResourceName = ""
  · simp [hres]
  · simp only [hres, if_false, ite_false]
    rcases hsel : select_auth cfg
        (((resolved_agent_config getAgent aid).map AgentConfig.isAzureAgent).getD false)
        pt ft with _ | _ | hh
    · simp
    · simp
    · cases net with
      | ok sendOk =>
        cases sendOk with
        | false => simp
        | true =>
          constructor
          · intro url h m hm
            cases hm
            exact ⟨rfl, rfl, rfl⟩
          · simp
      | rejected s => simp
      | wsError => simp
      | genericError => simp

/-- Witness for the connect contract: a concrete successful connection with
API-key authentication has the built initial configuration recorded as sent
on the opened socket. -/
theorem connect_upstream_contract_witness :
    (connect_to_azure (fun _ => none)
        ⟨"res", none, "", "gpt", "", "key", "v", "vt"⟩
        "rid" none (Net.ok true) none none).2.sentConfig =
      some (initial_config_message
        ⟨"res", none, "", "gpt", "", "key", "v", "vt"⟩ none) ∧
    (connect_to_azure (fun _ => none)
        ⟨"res", none, "", "gpt", "", "key", "v", "vt"⟩
        "rid" none (Net.ok true) none none).2.opened = true := by
  have h := (connect_upstream_contract (fun _ => none)
      ⟨"res", none, "", "gpt", "", "key", "v", "vt"⟩
      "rid" none (Net.ok true) none none).1 _ _ _ rfl
  exact ⟨h.1 ▸ h.2.1, h.2.2⟩

/-- C7: `handle_connection` never raises past its boundary; a pre-forwarding
failure (the upstream connect failing) is surfaced to the client as exactly
the structured error frame and nothing is sent upstream; on success the
client receives the `proxy.connected` frame followed by the forwarded
upstream frames (forwarding-stage failures end the loops with no error
frame sent); and the upstream socket is closed exactly once whenever it was
opened, and never otherwise. -/
theorem handle_connection_boundary (env : HandleEnv) :
    (handle_connection env).raised = false ∧
    (handle_connection env).azureCloseCount =
      (if (connect_to_azure env.getAgent env.cfg env.requestId
            (current_agent_id env) env.net env.primaryTok env.fallbackTok).2.opened
       then 1 else 0) ∧
    (∀ f, (connect_to_azure env.getAgent env.cfg env.requestId
            (current_agent_id env) env.net env.primaryTok env.fallbackTok).1 =
          ConnectOutcome.failed f →
      (handle_connection env).framesToClient =
        [dumps (error_frame "Failed to connect to Azure Voice API")] ∧
      (handle_connection env).framesToAzure = []) ∧
    (∀ url h m, (connect_to_azure env.getAgent env.cfg env.requestId
            (current_agent_id env) env.net env.primaryTok env.fallbackTok).1 =
          ConnectOutcome.connected url h m →
      (handle_connection env).framesToClient =
        dumps proxy_connected_frame ::
          forward_azure_to_client env.hashFn none env.azureFrames ∧
      (handle_connection env).framesToAzure =
        forward_client_to_azure env.clientFrames) := by
  simp only [handle_connection, connect_to_azure]
  by_cases hres : env.cfg.azureAiResourceName = ""
  · simp [hres]
  · simp only [hres, if_false, ite_false]
    rcases hsel : select_auth env.cfg
        (((resolved_agent_config env.getAgent (current_agent_id env)).map
            AgentConfig.isAzureAgent).getD false)
        env.primaryTok env.fallbackTok with _ | _ | hh
    · simp
    · simp
    · cases env.net with
      | ok sendOk => cases sendOk <;> simp
      | rejected s => simp
      | wsError => simp
      | genericError => simp

/-- Witness for the boundary theorem: with an empty resource name the
connect step fails, the handler reports no exception, sends exactly the
structured error frame, and performs no upstream close. -/
theorem handle_connection_boundary_witness :
    (handle_connection
      ⟨⟨"", none, "", "gpt", "", "key", "v", "vt"⟩, fun _ => none,
        FirstFrameResult.timeout, "rid", Net.ok true, none, none, [], [],
        fun _ => 0⟩).raised = false ∧
    (handle_connection
      ⟨⟨"", none, "", "gpt", "", "key", "v", "vt"⟩, fun _ => none,
        FirstFrameResult.timeout, "rid", Net.ok true, none, none, [], [],
        fun _ => 0⟩).framesToClient =
      [dumps (error_frame "Failed to connect to Azure Voice API")] := by
  have h := handle_connection_boundary
    ⟨⟨"", none, "", "gpt", "", "key", "v", "vt"⟩, fun _ => none,
      FirstFrameResult.timeout, "rid", Net.ok true, none, none, [], [],
      fun _ => 0⟩
  exact ⟨h.1, (h.2.2.1 ConnectFailure.missingResourceName rfl).1⟩

/-- C9: when the first client frame parses as a `session.update` whose
session object carries an `agent_id` with an empty or otherwise falsy
value, identification returns `none` (default routing) rather than the
falsy identifier; a returned identifier is always truthy. -/
theorem falsy_agent_id_yields_none :
    (∀ (raw : String) (fields sess : List (String × Json)) (v : Json),
      jsonEqStr (lookupField fields "type") "session.update" = true →
      lookupField fields "session" = some (Json.obj sess) →
      lookupField sess "agent_id" = some v →
      pyTruthy v = false →
      get_agent_id_from_client
        (FirstFrameResult.frame raw (some (Json.obj fields))) = none) ∧
    (∀ (r : FirstFrameResult) (v : Json),
      get_agent_id_from_client r = some v → pyTruthy v = true) := by
  constructor
  · intro raw fields sess v htype hsess haid hfalsy
    simp [get_agent_id_from_client, getAgentIdCore, htype, hsess, haid, hfalsy]
  · intro r v h
    cases r with
    | timeout => exact absurd h (by simp [get_agent_id_from_client])
    | emptyFrame => exact absurd h (by simp [get_agent_id_from_client])
    | recvRaises => exact absurd h (by simp [get_agent_id_from_client])
    | frame raw parsed =>
      cases parsed with
      | none => exact absurd h (by simp [get_agent_id_from_client])
      | some j =>
        cases j with
        | null => exact absurd h (by simp [get_agent_id_from_client, getAgentIdCore])
        | bool b => exact absurd h (by simp [get_agent_id_from_client, getAgentIdCore])
        | num q => exact absurd h (by simp [get_agent_id_from_client, getAgentIdCore])
        | str s => exact absurd h (by simp [get_agent_id_from_client, getAgentIdCore])
        | arr xs => exact absurd h (by simp [get_agent_id_from_client, getAgentIdCore])
        | obj fields =>
          simp only [get_agent_id_from_client, getAgentIdCore] at h
          by_cases htype :
              jsonEqStr (lookupField fields "type") "session.update" = true
          · rw [if_pos htype] at h
            split at h <;> rename_i heq
            · subst h
              repeat' split at heq
              all_goals simp_all
            · simp at h
          · rw [if_neg htype] at h
            exact absurd h (by simp)

/-- Witness for the falsy-identifier theorem: a `session.update` first
frame whose `agent_id` is the empty string yields `none`. -/
theorem falsy_agent_id_yields_none_witness :
    get_agent_id_from_client
      (FirstFrameResult.frame "m"
        (some (Json.obj [("type", Json.str "session.update"),
                         ("session", Json.obj [("agent_id", Json.str "")])]))) =
      none :=
  falsy_agent_id_yields_none.1 "m"
    [("type", Json.str "session.update"),
     ("session", Json.obj [("agent_id", Json.str "")])]
    [("agent_id", Json.str "")] (Json.str "") rfl rfl rfl (by decide)
